import Mathlib

/-!
Shallow embedding of the offline operation log and sync engine of the
Next.js-Local-First-Tracker repository, together with theorems settling the
frozen claims about it.

Sources embedded (millisecond timestamps become `Nat`, IndexedDB/Prisma
tables become association lists keyed by `id`, fallible storage steps take
explicit success flags):
  - `src/lib/db/indexed-db.ts` — the record types, the sync queue and the
    `dbHelpers` operations on it;
  - `src/lib/stores/application-store.ts` — `addApplication` and
    `updateApplication` (local write + queue append);
  - `src/hooks/useApplications.ts` — `changeStatus`;
  - the sync engine (`SyncEngine`): constants, the `sync()` entry guard,
    `createBatches`, `processBatch` concurrency structure,
    `processOperation`'s retry scheduling, `resolveConflict`, and
    `pullFromServer`;
  - the `/api/sync` route's UPDATE branch and the `/api/sync/pull` route as
    listed in `src/README.md`, and the PATCH handler of
    `src/app/api/applications/[id]/route.ts`.

Display-only optional record fields (location, salary range, dates, url,
notes) appear in no claim and are elided from the record structures; every
field a claim touches is kept, with the source's field names.
-/

namespace LocalFirstTracker

/-- `ApplicationStatus` from `src/lib/db/indexed-db.ts`. -/
inductive ApplicationStatus where
  | WISHLIST
  | APPLIED
  | SCREENING
  | INTERVIEW
  | OFFER
  | REJECTED
deriving DecidableEq

/-- The `Application` record of `src/lib/db/indexed-db.ts` (and the server's
Prisma row, which carries the same fields). `Date` values are millisecond
timestamps, so `Nat` here. -/
structure Application where
  id : String
  userId : String
  company : String
  position : String
  status : ApplicationStatus
  createdAt : Nat
  updatedAt : Nat
  lastSyncedAt : Nat
  version : Nat
deriving DecidableEq

/-- The `Contact` record (claim-relevant fields). -/
structure Contact where
  id : String
  applicationId : String
  name : String
  updatedAt : Nat
deriving DecidableEq

/-- The `Document` record (claim-relevant fields). -/
structure Document where
  id : String
  applicationId : String
  name : String
  url : String
  updatedAt : Nat
deriving DecidableEq

/-- `SyncOperationType` from `src/lib/db/indexed-db.ts`. -/
inductive SyncOperationType where
  | CREATE
  | UPDATE
  | DELETE
deriving DecidableEq

/-- `SyncEntityType` from `src/lib/db/indexed-db.ts`. -/
inductive SyncEntityType where
  | application
  | contact
  | document
deriving DecidableEq

/-- The `data: any` payload of a queued operation: the store queues the full
application for CREATE/UPDATE and the bare `{ id }` for DELETE. -/
inductive OpPayload where
  | app (a : Application)
  | idOnly (id : String)
deriving DecidableEq

/-- `SyncOperation` from `src/lib/db/indexed-db.ts`. -/
structure SyncOperation where
  id : String
  type : SyncOperationType
  entity : SyncEntityType
  entityId : String
  data : OpPayload
  timestamp : Nat
  synced : Bool
  retryCount : Nat
  error : Option String
deriving DecidableEq

/-- The client-side IndexedDB (`JobTrackerDB`): three record tables plus the
sync queue, each a list in primary-key table order. -/
structure ClientDb where
  applications : List Application
  contacts : List Contact
  documents : List Document
  syncQueue : List SyncOperation
deriving DecidableEq

/-- Dexie `Table.put`: replace the row with the same primary key, or append
a new row. `key` extracts the primary key. -/
def putBy (key : α → String) (table : List α) (row : α) : List α :=
  if table.any (fun x => key x == key row) then
    table.map (fun x => if key x == key row then row else x)
  else
    table ++ [row]

def putApplication (table : List Application) (a : Application) : List Application :=
  putBy (fun x => x.id) table a

def putContact (table : List Contact) (c : Contact) : List Contact :=
  putBy (fun x => x.id) table c

def putDocument (table : List Document) (d : Document) : List Document :=
  putBy (fun x => x.id) table d

/-- `MAX_BATCH_SIZE` from the sync engine. -/
def MAX_BATCH_SIZE : Nat := 50

/-- `MAX_RETRY_COUNT` from the sync engine. -/
def MAX_RETRY_COUNT : Nat := 5

/-- `RETRY_DELAYS` from the sync engine (milliseconds). -/
def RETRY_DELAYS : List Nat := [1000, 2000, 4000, 8000, 16000]

/-- `dbHelpers.markOperationSynced`: set `synced := true` on the row with
the given id. -/
def markOperationSynced (queue : List SyncOperation) (operationId : String) :
    List SyncOperation :=
  queue.map (fun o => if o.id == operationId then { o with synced := true } else o)

/-- `dbHelpers.incrementRetryCount`: read the row, and when present bump its
`retryCount` and record the error message. -/
def incrementRetryCount (queue : List SyncOperation) (operationId : String)
    (err : String) : List SyncOperation :=
  queue.map (fun o =>
    if o.id == operationId then
      { o with retryCount := o.retryCount + 1, error := some err }
    else o)

/-- The operation row `dbHelpers.addToSyncQueue` inserts (fresh UUID `opId`,
`Date.now()` as `now`): `synced := false`, `retryCount := 0`. -/
def mkQueueOp (opId : String) (ty : SyncOperationType) (ent : SyncEntityType)
    (entityId : String) (payload : OpPayload) (now : Nat) : SyncOperation :=
  { id := opId, type := ty, entity := ent, entityId := entityId,
    data := payload, timestamp := now, synced := false, retryCount := 0,
    error := none }

/-- Loop body of `SyncEngine.createBatches`, made structural with a fuel
argument: the JS `for (let i = 0; i < items.length; i += batchSize)` loop
runs at most `items.length` iterations whenever `batchSize ≥ 1` (every call
site passes `MAX_BATCH_SIZE = 50`), and each iteration pushes
`items.slice(i, i + batchSize)`. -/
def createBatchesGo (batchSize : Nat) : Nat → List α → List (List α)
  | _, [] => []
  | 0, _ :: _ => []
  | Nat.succ n, a :: as =>
      (a :: as).take batchSize :: createBatchesGo batchSize n ((a :: as).drop batchSize)

/-- `SyncEngine.createBatches`. -/
def createBatches (items : List α) (batchSize : Nat) : List (List α) :=
  createBatchesGo batchSize items.length items

/-- `dbHelpers.getUnsyncedOperations` (rows with `synced = 0`, in table
order) followed by the engine's `retryCount < MAX_RETRY_COUNT` filter
(`sync()` lines 87–92): the operations a sync pass selects. -/
def selectValidOperations (queue : List SyncOperation) : List SyncOperation :=
  (queue.filter (fun o => !o.synced)).filter (fun o => o.retryCount < MAX_RETRY_COUNT)

/-- The dispatch shape of one pass: `sync()` iterates the batches
sequentially (`for (const batch of batches) await this.processBatch(batch)`),
and `processBatch` fires every operation of a batch at once
(`Promise.allSettled(operations.map(op => this.processOperation(op)))`).
So each inner list is one concurrently-dispatched group, and the groups run
one after another. -/
def dispatchGroups (queue : List SyncOperation) : List (List SyncOperation) :=
  createBatches (selectValidOperations queue) MAX_BATCH_SIZE

/-- Two distinct selected operations are dispatched concurrently exactly
when they land in the same batch: `processBatch` awaits them through one
`Promise.allSettled` with no ordering between them. -/
def dispatchedConcurrently (queue : List SyncOperation)
    (o₁ o₂ : SyncOperation) : Prop :=
  o₁ ≠ o₂ ∧ ∃ b ∈ dispatchGroups queue, o₁ ∈ b ∧ o₂ ∈ b

instance (queue : List SyncOperation) (o₁ o₂ : SyncOperation) :
    Decidable (dispatchedConcurrently queue o₁ o₂) := by
  unfold dispatchedConcurrently
  infer_instance

/-- How one invocation of `SyncEngine.sync()` begins. The source's guard is
`if (!this.isOnline || this.isSyncing) return;` — a plain `return`, resolving
the promise with no error — and otherwise `this.isSyncing = true` before the
queue is drained. The two `failed…` constructors carry the spec's vocabulary
(`AlreadyInProgress`, `Offline`) so the source's behaviour can be compared
against the spec's; the source itself never produces them. -/
inductive PassEntryOutcome where
  | skippedSilently
  | failedAlreadyInProgress
  | failedOffline
  | proceeds
deriving DecidableEq

/-- The entry of `SyncEngine.sync()` (lines 77–82): the outcome, and the new
value of the `isSyncing` single-flight flag. -/
def syncStart (isOnline isSyncing : Bool) : PassEntryOutcome × Bool :=
  if !isOnline || isSyncing then (.skippedSilently, isSyncing)
  else (.proceeds, true)

/-- Modelled from the spec: `runSyncPass()` of §4.3, which "fails with
`AlreadyInProgress` if a pass is already running … fails with `Offline` if
connectivity is not Online, otherwise drains the Operation Log". The code for
this contract is not in the repository; this definition follows the spec's
words, for comparison with `syncStart`. -/
def runSyncPassSpec (isOnline isSyncing : Bool) : PassEntryOutcome :=
  if isSyncing then .failedAlreadyInProgress
  else if !isOnline then .failedOffline
  else .proceeds

/-- What one `sync()` invocation dispatches: nothing when the guard returns
early, and the batched selection otherwise. -/
def syncPassDispatch (isOnline isSyncing : Bool) (queue : List SyncOperation) :
    List (List SyncOperation) :=
  if !isOnline || isSyncing then [] else dispatchGroups queue

/-- `processOperation`'s backoff delay (line 182):
`RETRY_DELAYS[Math.min(operation.retryCount, RETRY_DELAYS.length - 1)]`.
`retryCount` is the operation's count as read when it was dispatched, i.e.
`k - 1` on its k-th consecutive failure. -/
def retryDelay (retryCount : Nat) : Nat :=
  RETRY_DELAYS.getD (min retryCount (RETRY_DELAYS.length - 1)) 0

/-- `processOperation`'s retry scheduling (lines 187–194): a `setTimeout`
for `retryDelay` is installed only when `operation.retryCount + 1 <
MAX_RETRY_COUNT`; otherwise no retry is scheduled at all. `some d` is a
scheduled retry after `d` milliseconds, `none` is no scheduled retry. -/
def scheduleRetry (retryCount : Nat) : Option Nat :=
  if retryCount + 1 < MAX_RETRY_COUNT then some (retryDelay retryCount)
  else none

/-- The server record carried in a conflict response (`result.serverData`),
typed per the entity the operation addressed. -/
inductive ServerRecord where
  | application (a : Application)
  | contact (c : Contact)
  | document (d : Document)
deriving DecidableEq

/-- `new Date(serverData.updatedAt).getTime()`. -/
def serverUpdatedAt : ServerRecord → Nat
  | .application a => a.updatedAt
  | .contact c => c.updatedAt
  | .document d => d.updatedAt

/-- `SyncEngine.resolveConflict` (lines 200–226): last-write-wins on
timestamps. When the server's `updatedAt` is strictly greater than the
operation's `timestamp`, the server record is `put` into the table named by
`localOperation.entity` (refreshing `lastSyncedAt` for applications);
otherwise nothing is written ("If local is newer, the server will be updated
by the sync operation"). The source switches on `localOperation.entity`;
`server` is the correspondingly-typed `serverData`. -/
def resolveConflictDb (st : ClientDb) (localOperation : SyncOperation)
    (server : ServerRecord) (now : Nat) : ClientDb :=
  if serverUpdatedAt server > localOperation.timestamp then
    match server with
    | .application a =>
        { st with applications :=
            putApplication st.applications { a with lastSyncedAt := now } }
    | .contact c => { st with contacts := putContact st.contacts c }
    | .document d => { st with documents := putDocument st.documents d }
  else st

/-- `processOperation`'s handling of an `ok` response that reported
`result.conflict` (lines 171–179): resolve the conflict, then mark the
operation synced. -/
def handleConflictResponse (st : ClientDb) (operation : SyncOperation)
    (server : ServerRecord) (now : Nat) : ClientDb :=
  let st₁ := resolveConflictDb st operation server now
  { st₁ with syncQueue := markOperationSynced st₁.syncQueue operation.id }

/-- The outcome of one `fetch("/api/sync", …)` dispatch as `processOperation`
observes it: an ok response (with the optional conflict payload), or a
thrown error / non-ok response with its message. -/
inductive DispatchOutcome where
  | ok (conflict : Option ServerRecord)
  | failed (msg : String)

/-- The effect of `processOperation` on the sync-queue table: an ok response
marks the operation synced (after any conflict resolution, which touches
only the record tables); a failure increments its retry count and records
the error. -/
def processOperationQueue (queue : List SyncOperation)
    (operation : SyncOperation) : DispatchOutcome → List SyncOperation
  | .ok _ => markOperationSynced queue operation.id
  | .failed msg => incrementRetryCount queue operation.id msg

/-- The effect of one full sync pass on the sync-queue table: every selected
operation is processed with its dispatch outcome `resp`; operations outside
the selection are never touched. -/
def runPassQueue (queue : List SyncOperation)
    (resp : SyncOperation → DispatchOutcome) : List SyncOperation :=
  (selectValidOperations queue).foldl
    (fun t op => processOperationQueue t op (resp op)) queue

/-- The query-string parameters of the pull request the route reads. -/
structure PullRequest where
  userId : String
  lastSyncedAt : Option Nat
deriving DecidableEq

/-- The pull request `SyncEngine.pullFromServer` sends (line 238):
`fetch(url("/api/sync/pull?userId=" ++ userId))` — the `lastSyncedAt`
parameter is never supplied. -/
def pullRequestOf (userId : String) : PullRequest :=
  { userId := userId, lastSyncedAt := none }

/-- The `/api/sync/pull` route's response body. -/
structure PullResponse where
  applications : List Application
  contacts : List Contact
  documents : List Document
  timestamp : Nat
deriving DecidableEq

/-- The `/api/sync/pull` GET handler (listed in `src/README.md`): it filters
applications by `userId`, adding `updatedAt > lastSyncedAt` only when that
query parameter is supplied; the caller's contacts and documents are
returned with no `updatedAt` filter in either case (`serverContacts` /
`serverDocuments` stand for the rows the contact/document queries scope to
the session user). The response carries the server time as `timestamp`. -/
def pullRoute (req : PullRequest) (serverApps : List Application)
    (serverContacts : List Contact) (serverDocuments : List Document)
    (now : Nat) : PullResponse :=
  { applications :=
      match req.lastSyncedAt with
      | none => serverApps.filter (fun a => a.userId == req.userId)
      | some t =>
          serverApps.filter (fun a => a.userId == req.userId && decide (t < a.updatedAt)),
    contacts := serverContacts,
    documents := serverDocuments,
    timestamp := now }

/-- `SyncEngine.pullFromServer`'s application of the response (lines
247–268): one `db.transaction("rw", …)` over the three record tables —
all-or-nothing by construction, hence a single total function here — that
`put`s every fetched application with `lastSyncedAt` refreshed and every
fetched contact and document as-is. The sync queue is not part of the
transaction and no checkpoint value exists anywhere in the client schema. -/
def applyPull (st : ClientDb) (resp : PullResponse) (now : Nat) : ClientDb :=
  { st with
    applications := resp.applications.foldl
      (fun tbl a => putApplication tbl { a with lastSyncedAt := now }) st.applications,
    contacts := resp.contacts.foldl putContact st.contacts,
    documents := resp.documents.foldl putDocument st.documents }

/-- The caller-supplied argument of `addApplication`:
`Omit<Application, "id" | "createdAt" | "updatedAt" | "lastSyncedAt" | "version">`. -/
structure NewApplicationData where
  userId : String
  company : String
  position : String
  status : ApplicationStatus
deriving DecidableEq

/-- The record `addApplication` constructs (application-store lines 46–54):
fresh UUID `newId`, all four bookkeeping timestamps set to `now`,
`version := 1`. -/
def newApplication (d : NewApplicationData) (newId : String) (now : Nat) :
    Application :=
  { id := newId, userId := d.userId, company := d.company,
    position := d.position, status := d.status, createdAt := now,
    updatedAt := now, lastSyncedAt := now, version := 1 }

/-- `addApplication` of `src/lib/stores/application-store.ts` (lines 43–79):
`await db.applications.add(application)` then
`await dbHelpers.addToSyncQueue("CREATE", "application", id, application)` —
two sequential IndexedDB writes with no enclosing transaction.
`recordWriteOk` and `queueAddOk` model whether each write succeeds (e.g.
storage quota): a failed step throws, so later steps do not run, but steps
already applied stay applied. Returns the resulting database and whether the
caller observed success. -/
def addApplicationRun (st : ClientDb) (d : NewApplicationData)
    (newId opId : String) (now : Nat) (recordWriteOk queueAddOk : Bool) :
    ClientDb × Bool :=
  if recordWriteOk = false then (st, false)
  else
    let app := newApplication d newId now
    let st₁ := { st with applications := st.applications ++ [app] }
    if queueAddOk = false then (st₁, false)
    else
      ({ st₁ with syncQueue := st₁.syncQueue ++
          [mkQueueOp opId .CREATE .application newId (.app app) now] }, true)

/-- `Partial<Application>` as `updateApplication` receives it. `updatedAt`
may be supplied but is always overridden by the store (the spread
`{...updates, updatedAt: now, version: …}` puts it last). -/
structure ApplicationUpdates where
  userId : Option String := none
  company : Option String := none
  position : Option String := none
  status : Option ApplicationStatus := none
  createdAt : Option Nat := none
  updatedAt : Option Nat := none
  lastSyncedAt : Option Nat := none
  version : Option Nat := none
deriving DecidableEq

/-- JavaScript `updates.version || 1`: `1` when the field is absent
(`undefined`) — or `0`, which `||` also treats as falsy. -/
def jsOrOne : Option Nat → Nat
  | none => 1
  | some 0 => 1
  | some (Nat.succ n) => Nat.succ n

/-- The merge `db.applications.update(id, updatedData)` performs with
`updatedData = {...updates, updatedAt: now, version: (updates.version || 1) + 1}`
(application-store lines 84–92): fields present in `updates` overwrite the
stored row, `updatedAt` becomes `now`, and the new `version` is computed
from the caller's `updates` alone — the stored row's version is never
read. -/
def applyApplicationUpdates (stored : Application) (updates : ApplicationUpdates)
    (now : Nat) : Application :=
  { stored with
    userId := updates.userId.getD stored.userId,
    company := updates.company.getD stored.company,
    position := updates.position.getD stored.position,
    status := updates.status.getD stored.status,
    createdAt := updates.createdAt.getD stored.createdAt,
    lastSyncedAt := updates.lastSyncedAt.getD stored.lastSyncedAt,
    updatedAt := now,
    version := jsOrOne updates.version + 1 }

/-- `updateApplication` of `src/lib/stores/application-store.ts` (lines
81–125): merge `updatedData` into the stored row, then queue an UPDATE
operation carrying the updated row — again two sequential writes with no
transaction. `none` when the row is not found ("Application not found after
update"). -/
def updateApplicationRun (st : ClientDb) (id : String)
    (updates : ApplicationUpdates) (opId : String) (now : Nat)
    (recordWriteOk queueAddOk : Bool) : Option (ClientDb × Bool) :=
  match st.applications.find? (fun a => a.id == id) with
  | none => none
  | some stored =>
    if recordWriteOk = false then some (st, false)
    else
      let updated := applyApplicationUpdates stored updates now
      let st₁ := { st with applications :=
          st.applications.map (fun a => if a.id == id then updated else a) }
      if queueAddOk = false then some (st₁, false)
      else
        some ({ st₁ with syncQueue := st₁.syncQueue ++
            [mkQueueOp opId .UPDATE .application id (.app updated) now] }, true)

/-- `changeStatus` of `src/hooks/useApplications.ts` (lines 47–49): it calls
`updateApplication(id, { status })`, so the updates carry only `status`. -/
def changeStatusUpdates (status : ApplicationStatus) : ApplicationUpdates :=
  { status := some status }

/-- `deleteApplication` of `src/lib/stores/application-store.ts` (lines
127–160): read the row (`none` when absent, "Application not found"), then
`await db.applications.delete(id)` and
`await dbHelpers.addToSyncQueue("DELETE", "application", id, { id })` — once
more two sequential IndexedDB writes with no enclosing transaction.
`recordDeleteOk` and `queueAddOk` model whether each write succeeds, as for
`addApplicationRun`. -/
def deleteApplicationRun (st : ClientDb) (id opId : String) (now : Nat)
    (recordDeleteOk queueAddOk : Bool) : Option (ClientDb × Bool) :=
  match st.applications.find? (fun a => a.id == id) with
  | none => none
  | some _ =>
    if recordDeleteOk = false then some (st, false)
    else
      let st₁ := { st with applications :=
          st.applications.filter (fun a => !(a.id == id)) }
      if queueAddOk = false then some (st₁, false)
      else
        some ({ st₁ with syncQueue := st₁.syncQueue ++
            [mkQueueOp opId .DELETE .application id (.idOnly id) now] }, true)

/-- The `/api/sync` POST handler's reply for an UPDATE operation on an
application. -/
inductive SyncUpdateResult where
  | notFound
  | forbidden
  | conflictWith (serverData : Application)
  | applied (result : Application)
deriving DecidableEq

/-- The UPDATE branch of the `/api/sync` POST handler (listed in
`src/README.md`, lines 1051–1082 there): look up the record; 404 when
absent; 403 when not owned by the session user; then compare
`new Date(existing.updatedAt).getTime()` against the operation's
`timestamp` — strictly greater means a conflict response carrying the full
current record with nothing written; otherwise the client payload `data` is
applied with `lastSyncedAt := now` and `version := existing.version + 1`.
No client-supplied version takes part in the check or the result. Returns
the stored row afterwards and the reply. -/
def syncRouteUpdate (existing : Option Application) (sessionUserId : String)
    (data : Application) (timestamp now : Nat) :
    Option Application × SyncUpdateResult :=
  match existing with
  | none => (none, .notFound)
  | some ex =>
    if ex.userId ≠ sessionUserId then (some ex, .forbidden)
    else if ex.updatedAt > timestamp then (some ex, .conflictWith ex)
    else
      let updated := { data with version := ex.version + 1, lastSyncedAt := now }
      (some updated, .applied updated)

/-- The PATCH handler of `src/app/api/applications/[id]/route.ts` (lines
98–117): the parsed partial update is applied over the existing row with
`version := existing.version + 1`, unconditionally — no version or timestamp
check of any kind. -/
def patchRoute (existing : Application) (data : ApplicationUpdates) :
    Application :=
  { existing with
    company := data.company.getD existing.company,
    position := data.position.getD existing.position,
    status := data.status.getD existing.status,
    version := existing.version + 1 }

/-! ## Concrete fixtures for the counterexample theorems -/

/-- A stored server row: authoritative `version` 5, `updatedAt` 100. -/
def exampleServerRow : Application :=
  { id := "a1", userId := "u", company := "Acme", position := "Dev",
    status := .APPLIED, createdAt := 0, updatedAt := 100, lastSyncedAt := 0,
    version := 5 }

/-- A client UPDATE payload whose own `version` field — the claim's
`baseVersion` — is 3, written at client time 200. -/
def examplePayload : Application :=
  { id := "a1", userId := "u", company := "Acme", position := "Dev",
    status := .INTERVIEW, createdAt := 0, updatedAt := 200, lastSyncedAt := 0,
    version := 3 }

/-- The client's local copy of the record. -/
def exampleLocalRow : Application :=
  { id := "a1", userId := "u", company := "Acme", position := "Dev",
    status := .INTERVIEW, createdAt := 0, updatedAt := 100, lastSyncedAt := 0,
    version := 1 }

/-- A queued UPDATE operation for `exampleLocalRow`, enqueued at time 100. -/
def exampleConflictOp : SyncOperation :=
  mkQueueOp "op-1" .UPDATE .application "a1" (.app exampleLocalRow) 100

/-- A client database holding the local row and its queued operation. -/
def exampleClientDb : ClientDb :=
  { applications := [exampleLocalRow], contacts := [], documents := [],
    syncQueue := [exampleConflictOp] }

/-- A server record older than the queued operation (`updatedAt` 50 < 100):
the ClientWins side of last-write-wins. -/
def exampleServerStale : Application := { exampleServerRow with updatedAt := 50 }

/-- An operation whose retry count has reached `MAX_RETRY_COUNT`. -/
def exampleExhaustedOp : SyncOperation :=
  { id := "op-9", type := .UPDATE, entity := .application, entityId := "a1",
    data := .idOnly "a1", timestamp := 0, synced := false, retryCount := 5,
    error := some "Sync failed: Internal Server Error" }

/-- A server record last updated at time 0 — older than any later sync. -/
def exampleStaleApp : Application :=
  { id := "a2", userId := "u", company := "Beta", position := "QA",
    status := .WISHLIST, createdAt := 0, updatedAt := 0, lastSyncedAt := 0,
    version := 1 }

/-- Caller data for a new application. -/
def exampleNewData : NewApplicationData :=
  { userId := "u", company := "Acme", position := "Dev", status := .WISHLIST }

/-- An empty client database. -/
def emptyClientDb : ClientDb :=
  { applications := [], contacts := [], documents := [], syncQueue := [] }

/-! ## Helper lemmas about the batching loop -/

theorem createBatchesGo_nil (k n : Nat) :
    createBatchesGo (α := α) k n [] = [] := by
  cases n <;> rfl

theorem createBatchesGo_pos (k n : Nat) (l : List α) (hl : l ≠ []) (hn : 0 < n) :
    createBatchesGo k n l = l.take k :: createBatchesGo k (n - 1) (l.drop k) := by
  cases n with
  | zero => exact absurd hn (by simp)
  | succ n =>
    cases l with
    | nil => exact absurd rfl hl
    | cons a as => rfl

theorem createBatchesGo_join (k : Nat) :
    ∀ (n : Nat) (l : List α), l.length ≤ n →
      (createBatchesGo (k + 1) n l).flatten = l := by
  intro n
  induction n with
  | zero =>
    intro l h
    have hl : l = [] := List.eq_nil_of_length_eq_zero (Nat.le_zero.mp h)
    subst hl
    rfl
  | succ n ih =>
    intro l h
    cases l with
    | nil => rfl
    | cons a as =>
      show ((a :: as).take (k + 1) ::
          createBatchesGo (k + 1) n ((a :: as).drop (k + 1))).flatten = a :: as
      rw [List.flatten_cons, ih]
      · exact List.take_append_drop _ _
      · rw [List.length_drop]
        simp only [List.length_cons] at h ⊢
        omega

theorem createBatches_join (l : List α) (k : Nat) :
    (createBatches l (k + 1)).flatten = l :=
  createBatchesGo_join k l.length l le_rfl

theorem createBatchesGo_length_le (k : Nat) :
    ∀ (n : Nat) (l : List α) (b : List α),
      b ∈ createBatchesGo k n l → b.length ≤ k := by
  intro n
  induction n with
  | zero =>
    intro l b hb
    cases l <;> simp [createBatchesGo] at hb
  | succ n ih =>
    intro l b hb
    cases l with
    | nil => simp [createBatchesGo] at hb
    | cons a as =>
      rcases List.mem_cons.mp hb with h | h
      · subst h
        rw [List.length_take]
        exact min_le_left _ _
      · exact ih _ _ h

/-! ## Theorems settling the claims -/

/-- C1 (amended): a sync pass batches the selected operations purely by
position — consecutive groups of at most `MAX_BATCH_SIZE`, whose in-order
concatenation is exactly the selection — and the groups are processed
sequentially while every pair of distinct operations inside one group,
entityIds equal or not, is dispatched concurrently through a single
`Promise.allSettled`. -/
theorem dispatch_position_batched (queue : List SyncOperation) :
    (dispatchGroups queue).flatten = selectValidOperations queue ∧
    (∀ b ∈ dispatchGroups queue, b.length ≤ MAX_BATCH_SIZE) ∧
    (∀ b ∈ dispatchGroups queue, ∀ o₁ ∈ b, ∀ o₂ ∈ b, o₁ ≠ o₂ →
      dispatchedConcurrently queue o₁ o₂) := by
  refine ⟨createBatches_join _ 49, ?_, ?_⟩
  · intro b hb
    exact createBatchesGo_length_le MAX_BATCH_SIZE _ _ _ hb
  · intro b hb o₁ h₁ o₂ h₂ hne
    exact ⟨hne, b, hb, h₁, h₂⟩

/-- C1 (counterexample): two operations queued against the same `entityId`
`"app-1"` land in the same batch and are dispatched concurrently — not
strictly sequentially as the claim states. -/
theorem sameEntity_concurrent_dispatch :
    (mkQueueOp "op-1" .UPDATE .application "app-1" (.idOnly "app-1") 1).entityId =
      (mkQueueOp "op-2" .UPDATE .application "app-1" (.idOnly "app-1") 2).entityId ∧
    dispatchedConcurrently
      [mkQueueOp "op-1" .UPDATE .application "app-1" (.idOnly "app-1") 1,
       mkQueueOp "op-2" .UPDATE .application "app-1" (.idOnly "app-1") 2]
      (mkQueueOp "op-1" .UPDATE .application "app-1" (.idOnly "app-1") 1)
      (mkQueueOp "op-2" .UPDATE .application "app-1" (.idOnly "app-1") 2) := by
  constructor
  · rfl
  · decide

/-- C9: `createBatches` groups any selected list into consecutive batches of
size at most `MAX_BATCH_SIZE` whose in-order concatenation is the list
itself, and a list of 51 operations yields exactly two batches of sizes 50
and 1. -/
theorem createBatches_batching (ops : List SyncOperation) :
    (createBatches ops MAX_BATCH_SIZE).flatten = ops ∧
    (∀ b ∈ createBatches ops MAX_BATCH_SIZE, b.length ≤ MAX_BATCH_SIZE) ∧
    (ops.length = 51 →
      (createBatches ops MAX_BATCH_SIZE).map List.length = [50, 1]) := by
  refine ⟨createBatches_join ops 49, ?_, ?_⟩
  · intro b hb
    exact createBatchesGo_length_le MAX_BATCH_SIZE _ _ _ hb
  · intro h
    have hne : ops ≠ [] := by
      intro e
      rw [e] at h
      simp at h
    have h50 : (ops.drop 50).length = 1 := by
      rw [List.length_drop, h]
    have hne2 : ops.drop 50 ≠ [] := by
      intro e
      rw [e] at h50
      simp at h50
    have h100 : ((ops.drop 50).drop 50).length = 0 := by
      rw [List.length_drop, h50]
    have e100 : (ops.drop 50).drop 50 = [] :=
      List.eq_nil_of_length_eq_zero h100
    have step : createBatches ops MAX_BATCH_SIZE =
        createBatchesGo 50 ops.length ops := rfl
    rw [step, createBatchesGo_pos 50 ops.length ops hne (by omega),
      createBatchesGo_pos 50 (ops.length - 1) (ops.drop 50) hne2 (by omega),
      e100, createBatchesGo_nil]
    simp [List.length_take, h, h50]

/-- C2 (amended): the reconciliation endpoint's UPDATE branch consults no
`baseVersion` at all. For an owned existing record it returns Conflict with
the full current record, unmodified, exactly when the record's `updatedAt`
is strictly greater than the operation's `timestamp`; otherwise it applies
the client payload with `version := existing.version + 1` (the only place
the authoritative version is assigned). The PATCH route likewise sets
`version := existing.version + 1` unconditionally. -/
theorem syncRouteUpdate_timestamp_gated (ex data : Application) (ts now : Nat) :
    (ts < ex.updatedAt →
      syncRouteUpdate (some ex) ex.userId data ts now = (some ex, .conflictWith ex)) ∧
    (ex.updatedAt ≤ ts →
      syncRouteUpdate (some ex) ex.userId data ts now =
        (some { data with version := ex.version + 1, lastSyncedAt := now },
         .applied { data with version := ex.version + 1, lastSyncedAt := now })) ∧
    (∀ (existing : Application) (d : ApplicationUpdates),
      (patchRoute existing d).version = existing.version + 1) := by
  refine ⟨?_, ?_, fun existing d => rfl⟩
  · intro h
    simp [syncRouteUpdate, h]
  · intro h
    simp [syncRouteUpdate, Nat.not_lt.mpr h]

/-- C2 (counterexample): with the server row at version 5 and the
operation's `baseVersion` (its payload's `version`) at 3 — versions differ —
the endpoint still applies the mutation (client timestamp 200 ≥ server
`updatedAt` 100), bumping the version to 6; and with versions equal (3 = 3)
but the server row newer (`updatedAt` 500 > 200) it returns Conflict instead
of applying. The version-based contract the claim states is false on both
sides. -/
theorem syncRouteUpdate_ignores_baseVersion :
    exampleServerRow.version ≠ examplePayload.version ∧
    syncRouteUpdate (some exampleServerRow) "u" examplePayload 200 300 =
      (some { examplePayload with version := 6, lastSyncedAt := 300 },
       .applied { examplePayload with version := 6, lastSyncedAt := 300 }) ∧
    ({ exampleServerRow with updatedAt := 500, version := 3 } : Application).version =
      examplePayload.version ∧
    syncRouteUpdate (some { exampleServerRow with updatedAt := 500, version := 3 })
        "u" examplePayload 200 300 =
      (some { exampleServerRow with updatedAt := 500, version := 3 },
       .conflictWith { exampleServerRow with updatedAt := 500, version := 3 }) := by
  decide

/-- C3 (amended): on a conflict response the resolver overwrites the local
record with the server's exactly when the server record's `updatedAt` is
strictly greater than the operation's timestamp (ServerWins, and the
operation is marked synced); otherwise it leaves the local record unchanged
and the operation is likewise just marked synced — no new operation carrying
the client's payload is requeued, and the queue's length never changes. -/
theorem conflictResolution_lww (st : ClientDb) (op : SyncOperation)
    (a : Application) (now : Nat) :
    (op.timestamp < a.updatedAt →
      handleConflictResponse st op (.application a) now =
        { st with
            applications := putApplication st.applications { a with lastSyncedAt := now },
            syncQueue := markOperationSynced st.syncQueue op.id }) ∧
    (a.updatedAt ≤ op.timestamp →
      handleConflictResponse st op (.application a) now =
        { st with syncQueue := markOperationSynced st.syncQueue op.id }) ∧
    (handleConflictResponse st op (.application a) now).syncQueue.length =
      st.syncQueue.length := by
  refine ⟨?_, ?_, ?_⟩
  · intro h
    simp [handleConflictResponse, resolveConflictDb, serverUpdatedAt, h]
  · intro h
    simp [handleConflictResponse, resolveConflictDb, serverUpdatedAt,
      Nat.not_lt.mpr h]
  · by_cases h : op.timestamp < a.updatedAt <;>
      simp [handleConflictResponse, resolveConflictDb, serverUpdatedAt, h,
        markOperationSynced]

/-- C3 (counterexample): ClientWins case — the queued operation's timestamp
(100) is not smaller than the server record's `updatedAt` (50). The resolver
leaves the local record unchanged (as the claim says) but requeues nothing:
the queue afterwards holds exactly the original operation marked synced, so
no operation carrying the client's payload with an updated `baseVersion`
exists and the client's change is dropped. -/
theorem clientWins_requeues_nothing :
    (handleConflictResponse exampleClientDb exampleConflictOp
        (.application exampleServerStale) 999).applications =
      exampleClientDb.applications ∧
    (handleConflictResponse exampleClientDb exampleConflictOp
        (.application exampleServerStale) 999).syncQueue =
      [{ exampleConflictOp with synced := true }] := by
  decide

/-- C4 (amended): invoking `sync()` while a pass is running, or while the
engine believes it is offline, returns immediately and silently — no
`AlreadyInProgress` or `Offline` failure is ever produced — and dispatches
no operations; a pass proceeds only from an online, non-syncing state and
sets the single-flight flag, so at most one pass runs at a time. -/
theorem syncGuard_silent (isOnline isSyncing : Bool)
    (queue : List SyncOperation) :
    (isSyncing = true →
      syncPassDispatch isOnline isSyncing queue = [] ∧
      syncStart isOnline isSyncing = (.skippedSilently, true)) ∧
    (isOnline = false →
      syncPassDispatch isOnline isSyncing queue = [] ∧
      (syncStart isOnline isSyncing).1 = .skippedSilently) ∧
    ((syncStart isOnline isSyncing).1 = .proceeds →
      isOnline = true ∧ isSyncing = false ∧
      (syncStart isOnline isSyncing).2 = true) ∧
    (syncStart isOnline isSyncing).1 ≠ .failedAlreadyInProgress ∧
    (syncStart isOnline isSyncing).1 ≠ .failedOffline := by
  cases isOnline <;> cases isSyncing <;>
    simp [syncStart, syncPassDispatch]

/-- C4 (counterexample): at the two states the claim covers — a pass already
running, and connectivity down — the source's `sync()` entry returns
silently, while the spec's `runSyncPass()` contract demands the
`AlreadyInProgress` and `Offline` failures; the two outcomes differ at both
concrete states. -/
theorem syncGuard_returns_no_error :
    (syncStart true true).1 = .skippedSilently ∧
    runSyncPassSpec true true = .failedAlreadyInProgress ∧
    (syncStart true true).1 ≠ runSyncPassSpec true true ∧
    (syncStart false false).1 = .skippedSilently ∧
    runSyncPassSpec false false = .failedOffline ∧
    (syncStart false false).1 ≠ runSyncPassSpec false false := by
  decide

/-- C5 (amended): every operation a sync pass selects has
`retryCount < MAX_RETRY_COUNT` and is unsynced — an operation whose count
has reached 5 is never selected or dispatched automatically again — and a
pass over a queue of only such exhausted operations changes nothing: the
operation undergoes no transition to any Failed state (none exists in the
schema), and no `manualRetry` function exists in the code. -/
theorem retryCap_excludes_exhausted (queue : List SyncOperation)
    (resp : SyncOperation → DispatchOutcome) :
    (∀ op ∈ selectValidOperations queue,
      op.retryCount < MAX_RETRY_COUNT ∧ op.synced = false) ∧
    (queue.all (fun o => MAX_RETRY_COUNT ≤ o.retryCount) = true →
      runPassQueue queue resp = queue) := by
  constructor
  · intro op hop
    have h2 := List.mem_filter.mp hop
    have h1 := List.mem_filter.mp h2.1
    refine ⟨by simpa using h2.2, by simpa using h1.2⟩
  · intro hall
    have hsel : selectValidOperations queue = [] := by
      apply List.filter_eq_nil_iff.mpr
      intro o ho
      have hq := (List.mem_filter.mp ho).1
      have h5 := List.all_eq_true.mp hall o hq
      simp only [decide_eq_true_eq] at h5 ⊢
      omega
    simp [runPassQueue, hsel]

/-- C5 (counterexample): a queue holding one operation with
`retryCount = 5`. The pass selects nothing and, afterwards, the queue is
bit-for-bit unchanged: the operation is still unsynced with the same fields
— no transition to a terminal Failed state happens (and nothing in the code
resets the count: there is no `manualRetry`). -/
theorem exhaustedOp_no_state_transition :
    selectValidOperations [exampleExhaustedOp] = [] ∧
    runPassQueue [exampleExhaustedOp] (fun _ => .failed "network error") =
      [exampleExhaustedOp] ∧
    exampleExhaustedOp.synced = false := by
  refine ⟨by decide, ?_, by decide⟩
  simp [runPassQueue]
  decide

/-- C6 (amended): the delay scheduled after the k-th consecutive transient
failure of one operation (the snapshot `retryCount` being `k - 1`) is
exactly 1s, 2s, 4s and 8s for k = 1..4; after the 5th failure the 16s entry
of `RETRY_DELAYS` is computed but no retry is scheduled at all, because
`retryCount + 1 < MAX_RETRY_COUNT` fails. -/
theorem backoff_schedule :
    scheduleRetry 0 = some 1000 ∧ scheduleRetry 1 = some 2000 ∧
    scheduleRetry 2 = some 4000 ∧ scheduleRetry 3 = some 8000 ∧
    scheduleRetry 4 = none ∧ retryDelay 4 = 16000 := by
  decide

/-- C6 (counterexample): after the 5th consecutive failure (snapshot
`retryCount = 4`) no delay is scheduled — not the 16s the claim states. -/
theorem fifth_failure_schedules_nothing :
    scheduleRetry 4 = none ∧ scheduleRetry 4 ≠ some 16000 := by
  decide

/-- C7 (amended): `pullFromServer` supplies no checkpoint — the request
carries only the userId — so the route returns all of the user's
applications regardless of `updatedAt` (the `updatedAt > lastSyncedAt`
filter exists on the route but only fires when the parameter is supplied);
the fetched records are applied in one all-or-nothing transaction over the
three record tables, which never touches the sync queue, and no checkpoint
value is stored or updated anywhere in the client schema. -/
theorem pull_unfiltered_atomic_apply (userId : String)
    (serverApps : List Application) (serverContacts : List Contact)
    (serverDocuments : List Document) (t now : Nat) (st : ClientDb)
    (resp : PullResponse) :
    (pullRequestOf userId).lastSyncedAt = none ∧
    (pullRoute (pullRequestOf userId) serverApps serverContacts
        serverDocuments now).applications =
      serverApps.filter (fun a => a.userId == userId) ∧
    (∀ a ∈ (pullRoute { userId := userId, lastSyncedAt := some t }
        serverApps serverContacts serverDocuments now).applications,
      t < a.updatedAt) ∧
    (applyPull st resp now).syncQueue = st.syncQueue := by
  refine ⟨rfl, rfl, ?_, rfl⟩
  intro a ha
  have h := (List.mem_filter.mp ha).2
  simp only [Bool.and_eq_true, decide_eq_true_eq] at h
  exact h.2

/-- C7 (counterexample): the client's pull request carries no checkpoint,
and a record with `updatedAt = 0` is fetched even though any positive
checkpoint (e.g. 50) would exclude it — the route filters by checkpoint only
when one is supplied, which `pullFromServer` never does. -/
theorem pull_fetches_stale_records :
    pullRequestOf "u" = { userId := "u", lastSyncedAt := none } ∧
    (pullRoute (pullRequestOf "u") [exampleStaleApp] [] [] 100).applications =
      [exampleStaleApp] ∧
    (pullRoute { userId := "u", lastSyncedAt := some 50 }
        [exampleStaleApp] [] [] 100).applications = [] := by
  decide

/-- C8 (amended): every local mutation of an application — `addApplication`,
`updateApplication` and `deleteApplication` — performs the record write and
the queue append as two separate sequential IndexedDB writes, not one atomic
commit. On each path: when both writes succeed, the record change and its
queued operation (CREATE, UPDATE or DELETE) are both present and the caller
observes success; when the queue append fails after the record write, the
resulting state has the record change applied with no corresponding queued
operation (the caller observes the failure); when the record write itself
fails nothing is applied. `stored` is the row `find?` returns for `id` on
the update and delete paths. -/
theorem localMutation_two_step_commit (st : ClientDb)
    (d : NewApplicationData) (newId opId id : String)
    (updates : ApplicationUpdates) (stored : Application) (now : Nat)
    (qOk : Bool) :
    (addApplicationRun st d newId opId now true true).1.applications =
      st.applications ++ [newApplication d newId now] ∧
    (addApplicationRun st d newId opId now true true).1.syncQueue =
      st.syncQueue ++ [mkQueueOp opId .CREATE .application newId
        (.app (newApplication d newId now)) now] ∧
    (addApplicationRun st d newId opId now true true).2 = true ∧
    (addApplicationRun st d newId opId now true false).1.applications =
      st.applications ++ [newApplication d newId now] ∧
    (addApplicationRun st d newId opId now true false).1.syncQueue =
      st.syncQueue ∧
    (addApplicationRun st d newId opId now true false).2 = false ∧
    (addApplicationRun st d newId opId now false qOk).1 = st ∧
    (addApplicationRun st d newId opId now false qOk).2 = false ∧
    (st.applications.find? (fun a => a.id == id) = some stored →
      updateApplicationRun st id updates opId now true true =
        some ({ st with
          applications := st.applications.map (fun a =>
            if a.id == id then applyApplicationUpdates stored updates now else a),
          syncQueue := st.syncQueue ++ [mkQueueOp opId .UPDATE .application id
            (.app (applyApplicationUpdates stored updates now)) now] }, true) ∧
      updateApplicationRun st id updates opId now true false =
        some ({ st with
          applications := st.applications.map (fun a =>
            if a.id == id then applyApplicationUpdates stored updates now else a) },
          false) ∧
      updateApplicationRun st id updates opId now false qOk = some (st, false)) ∧
    (st.applications.find? (fun a => a.id == id) = some stored →
      deleteApplicationRun st id opId now true true =
        some ({ st with
          applications := st.applications.filter (fun a => !(a.id == id)),
          syncQueue := st.syncQueue ++
            [mkQueueOp opId .DELETE .application id (.idOnly id) now] }, true) ∧
      deleteApplicationRun st id opId now true false =
        some ({ st with
          applications := st.applications.filter (fun a => !(a.id == id)) },
          false) ∧
      deleteApplicationRun st id opId now false qOk = some (st, false)) := by
  refine ⟨?_, ?_, ?_, ?_, ?_, ?_, ?_, ?_, ?_, ?_⟩
  any_goals simp [addApplicationRun]
  · intro h
    refine ⟨?_, ?_, ?_⟩ <;> simp [updateApplicationRun, h]
  · intro h
    refine ⟨?_, ?_, ?_⟩ <;> simp [deleteApplicationRun, h]

/-- C8 (counterexample): starting from an empty database, the record write
succeeds and the queue append then fails — the observable state has the
application present and an empty sync queue: the record write applied with
no corresponding queued operation, which the claim says can never be
observed. -/
theorem record_written_without_queued_operation :
    (addApplicationRun emptyClientDb exampleNewData "a3" "op-3" 7
        true false).1.applications = [newApplication exampleNewData "a3" 7] ∧
    (addApplicationRun emptyClientDb exampleNewData "a3" "op-3" 7
        true false).1.syncQueue = [] ∧
    (addApplicationRun emptyClientDb exampleNewData "a3" "op-3" 7
        true false).2 = false := by
  decide

/-- C10: the merged row `updateApplication` stores carries
`version = (updates.version || 1) + 1` — computed from the caller-supplied
updates alone ("or 1 if absent", JavaScript falsiness), identical whatever
the stored row held — and on the `changeStatus` path, whose updates carry
only `status`, the resulting version is always 2. -/
theorem updateApplication_version_from_updates (stored stored₂ : Application)
    (updates : ApplicationUpdates) (s : ApplicationStatus) (now : Nat) :
    (applyApplicationUpdates stored updates now).version =
      jsOrOne updates.version + 1 ∧
    (applyApplicationUpdates stored updates now).version =
      (applyApplicationUpdates stored₂ updates now).version ∧
    (updates.version = none →
      (applyApplicationUpdates stored updates now).version = 2) ∧
    (applyApplicationUpdates stored (changeStatusUpdates s) now).version = 2 := by
  refine ⟨rfl, rfl, ?_, rfl⟩
  intro h
  simp [applyApplicationUpdates, h, jsOrOne]

end LocalFirstTracker
